import Mathlib

/-!
Verification of the sequential multi-provider enrichment pipeline of
`strategic-meeting-intelligence` (src/main.py, src/demo_app.py).

The Python code is shallowly embedded: external provider calls
(Whisper transcription, AssemblyAI diarization, OpenAI chat completion)
are modelled as oracle inputs to the embedded functions; the JSON values
that flow through the pipeline are modelled by the dynamic value type
`PyVal`; Python float timestamps are modelled as exact rationals.
-/

namespace SMI

/-- Dynamic values: the model of the Python/JSON values that flow through
the pipeline (dict literals, parsed JSON, list/str/number/bool fields). -/
inductive PyVal where
  | pstr (s : String)
  | pnum (q : ℚ)
  | pbool (b : Bool)
  | pnone
  | plist (xs : List PyVal)
  | pdict (fields : List (String × PyVal))

/-- Model of Python `d[k]` on a dict: `none` models a raised `KeyError`
(or a `TypeError` from indexing a non-dict). -/
def PyVal.lookupKey (v : PyVal) (k : String) : Option PyVal :=
  match v with
  | .pdict fields => fields.lookup k
  | _ => none

/-- Model of Python `d.get(k, default)` on a dict. -/
def PyVal.getD (v : PyVal) (k : String) (default : PyVal) : PyVal :=
  match v.lookupKey k with
  | some x => x
  | none => default

/-- Model of Python `k in d` for a dict `d`. -/
def PyVal.containsKey (v : PyVal) (k : String) : Bool :=
  (v.lookupKey k).isSome

/-- Python truthiness of a value (`if v:`). -/
def PyVal.isTruthy (v : PyVal) : Bool :=
  match v with
  | .pstr s => !s.isEmpty
  | .pnum q => q != 0
  | .pbool b => b
  | .pnone => false
  | .plist xs => !xs.isEmpty
  | .pdict fields => !fields.isEmpty

/-- The value viewed as a list, `none` when it is not a list
(models iteration / `len` over a non-list raising). -/
def PyVal.asList (v : PyVal) : Option (List PyVal) :=
  match v with
  | .plist xs => some xs
  | _ => none

/-- Whether the value is a string. -/
def PyVal.isStr (v : PyVal) : Bool :=
  match v with
  | .pstr _ => true
  | _ => false

/-- Whether the value is a number. -/
def PyVal.isNum (v : PyVal) : Bool :=
  match v with
  | .pnum _ => true
  | _ => false

/-- Whether the value is a dict all of whose values are strings
(a "flat mapping of string fields" in the words of the spec). -/
def PyVal.isStrDict (v : PyVal) : Bool :=
  match v with
  | .pdict fields => fields.all (fun p => p.2.isStr)
  | _ => false

/-- Result of `transcribe_with_whisper` (src/main.py lines 40-67): on
success a dict with `text`, `language`, `duration`; on failure
`success = false` with an error message. The external Whisper call is the
oracle producing this value. -/
structure WhisperResult where
  success : Bool
  text : String
  language : String
  duration : ℚ
  error : String

/-- One utterance of the diarization provider response
(timestamps in milliseconds; `confidence` is absent for some providers,
modelled by `Option`). -/
structure Utterance where
  speaker : String
  start : ℚ
  stop : ℚ
  confidence : Option ℚ

/-- The diarization provider response: either an error status or a list
of utterances (src/main.py lines 86-93). -/
structure DiarizationResponse where
  isError : Bool
  errorMsg : String
  utterances : List Utterance

/-- A speaker segment as built by `get_speaker_timestamps_only`
(src/main.py lines 95-100): timestamps in seconds. -/
structure SpeakerSegment where
  speaker : String
  start : ℚ
  stop : ℚ
  confidence : ℚ
deriving DecidableEq, Repr

/-- Result dict of `get_speaker_timestamps_only`: on the error paths the
Python dict has no `speaker_segments`/`total_speakers` keys and the
`.get` defaults of the callers produce `[]` and `0`, which is how the error
constructor is modelled here. -/
structure SpeakerResult where
  success : Bool
  speaker_segments : List SpeakerSegment
  total_speakers : Nat
  error : String
deriving DecidableEq, Repr

/-- The per-utterance conversion of src/main.py lines 95-100:
`start`/`end` are divided by 1000 (milliseconds to seconds) and a missing
provider confidence defaults to 0.9. -/
def uttToSeg (u : Utterance) : SpeakerSegment :=
  { speaker := u.speaker
    start := u.start / 1000
    stop := u.stop / 1000
    confidence := u.confidence.getD (9 / 10) }

/-- Embedding of `get_speaker_timestamps_only` (src/main.py lines 69-109).
`keyPresent` models the `ASSEMBLYAI_KEY` environment lookup, `raises`
models any exception thrown inside the `try` block (caught at line 108),
and `resp` is the provider response. -/
def get_speaker_timestamps_only (keyPresent : Bool) (raises : Bool)
    (exnMsg : String) (resp : DiarizationResponse) : SpeakerResult :=
  if !keyPresent then
    { success := false, speaker_segments := [], total_speakers := 0
      error := "AssemblyAI key not found" }
  else if raises then
    { success := false, speaker_segments := [], total_speakers := 0
      error := "AssemblyAI error: " ++ exnMsg }
  else if resp.isError then
    { success := false, speaker_segments := [], total_speakers := 0
      error := resp.errorMsg }
  else
    let speaker_segments := resp.utterances.map uttToSeg
    { success := true
      speaker_segments := speaker_segments
      total_speakers := ((speaker_segments.map (·.speaker)).eraseDups).length
      error := "" }

/-- Embedding of `combine_transcription_with_speakers`
(src/main.py lines 111-118): returns the Whisper text unchanged in every
case, paired with the speaker segments when diarization succeeded with a
non-empty segment list. -/
def combine_transcription_with_speakers (whisper_result : WhisperResult)
    (speaker_result : SpeakerResult) : String × List SpeakerSegment :=
  if !speaker_result.success || speaker_result.speaker_segments.isEmpty then
    (whisper_result.text, [])
  else
    (whisper_result.text, speaker_result.speaker_segments)

/-- The Italian function words scanned by the prompt-selection heuristic
(src/main.py line 130). -/
def italianFunctionWords : List String :=
  ["questo", "che", "per", "una", "con", "sono", "della", "anche"]

/-- Whether the first character list starts with the second. -/
def startsWithChars : List Char → List Char → Bool
  | _, [] => true
  | [], _ :: _ => false
  | c :: cs, p :: ps => p == c && startsWithChars cs ps

/-- Whether the character list has the pattern as a contiguous sublist. -/
def hasSubChars (pat : List Char) : List Char → Bool
  | [] => pat.isEmpty
  | s@(_ :: rest) => startsWithChars s pat || hasSubChars pat rest

/-- Python `pat in s` on strings: substring containment. -/
def strContainsSub (s pat : String) : Bool :=
  hasSubChars pat.data s.data

/-- Python `s.lower()`, modelled characterwise (the scanned function
words are ASCII). -/
def pyLower (s : String) : String :=
  ⟨s.data.map Char.toLower⟩

/-- Embedding of the prompt-language branch condition of src/main.py
line 130: the Italian system/analysis prompts are used when the detected
language is `it` or the lowercased transcript contains one of the Italian
function words. -/
def usesItalianPrompt (transcription_text detected_language : String) : Bool :=
  detected_language == "it" ||
    italianFunctionWords.any (fun word => strContainsSub (pyLower transcription_text) word)

/-- The hard-coded Italian fallback payload of src/main.py lines 313-379,
substituted when the provider response fails to parse as JSON and the
detected language is `it`. -/
def fallback_analysis_it : PyVal :=
  .pdict [
    ("strategic_insights", .plist [
      .pdict [
        ("insight", .pstr "Il meeting rivela dinamiche decisionali interessanti con potenziali aree di miglioramento nella comunicazione strategica"),
        ("implicazione", .pstr "Opportunità di ottimizzare i processi decisionali e aumentare l\x27allineamento del team"),
        ("azione_suggerita", .pstr "Implementare framework strutturati per decision-making e follow-up sistematici"),
        ("priorita", .pstr "alta"),
        ("timeline", .pstr "Prossime 2-4 settimane")],
      .pdict [
        ("insight", .pstr "Emergono segnali di potenziali innovazioni di prodotto/servizio non completamente esplorate"),
        ("implicazione", .pstr "Rischio di perdere opportunità competitive se non strutturate adeguatamente"),
        ("azione_suggerita", .pstr "Creare task force dedicata per sviluppo concept emersi nel meeting"),
        ("priorita", .pstr "media"),
        ("timeline", .pstr "Prossimo mese")]]),
    ("innovation_opportunities", .plist [
      .pdict [
        ("opportunita", .pstr "Sviluppo di nuove funzionalità basate su feedback emersi nella discussione"),
        ("impatto_potenziale", .pstr "alto"),
        ("feasibilita", .pstr "media"),
        ("investimento_richiesto", .pstr "Moderato - risorse esistenti"),
        ("tempo_implementazione", .pstr "3-6 mesi")]]),
    ("recurring_themes", .plist [
      .pdict [
        ("tema", .pstr "Efficienza operativa e ottimizzazione processi"),
        ("importanza", .pstr "alta"),
        ("frequenza", .pstr "Ricorrente"),
        ("sentiment", .pstr "costruttivo"),
        ("pattern_emotivo", .pstr "Orientamento al miglioramento continuo")]]),
    ("decisions_made", .plist [
      .pdict [
        ("decisione", .pstr "Procedere con analisi approfondita delle opportunità discusse"),
        ("responsabile", .pstr "Team leadership"),
        ("timeline", .pstr "Follow-up entro 1-2 settimane"),
        ("risorse_necessarie", .pstr "Tempo team + eventuale consulenza esterna"),
        ("rischi_identificati", .pstr "Dispersione focus se non prioritizzate")]]),
    ("weak_signals", .plist [
      .pdict [
        ("segnale", .pstr "Potenziali cambiamenti nelle dinamiche di mercato non esplicitamente discussi"),
        ("implicazioni", .pstr "Necessità di monitoraggio proattivo trend esterni"),
        ("urgenza", .pstr "media"),
        ("azioni_preventive", .pstr "Implementare sistema di market intelligence")]]),
    ("team_dynamics", .plist [
      .pdict [
        ("dinamica", .pstr "Collaborazione attiva con spazi per migliorare l\x27allineamento strategico"),
        ("impatto_su_business", .pstr "Efficacia decisionale può essere ottimizzata"),
        ("raccomandazione", .pstr "Strutturare meglio i meeting con agenda e outcome chiari")]]),
    ("competitive_intelligence", .plist [
      .pdict [
        ("insight_competitivo", .pstr "Opportunità di differenziazione emerse dalla discussione"),
        ("vantaggio_potenziale", .pstr "First-mover advantage su specifiche iniziative"),
        ("azione_immediata", .pstr "Mappare landscape competitivo per validare unicità")]])]

/-- The hard-coded English fallback payload of src/main.py lines 381-441,
substituted when the provider response fails to parse as JSON and the
detected language is not `it`. -/
def fallback_analysis_en : PyVal :=
  .pdict [
    ("strategic_insights", .plist [
      .pdict [
        ("insight", .pstr "Meeting reveals interesting decision-making dynamics with potential communication optimization opportunities"),
        ("implicazione", .pstr "Opportunity to optimize decision processes and increase team alignment"),
        ("azione_suggerita", .pstr "Implement structured decision-making frameworks and systematic follow-ups"),
        ("priorita", .pstr "alta"),
        ("timeline", .pstr "Next 2-4 weeks")]]),
    ("innovation_opportunities", .plist [
      .pdict [
        ("opportunita", .pstr "Development of new features based on feedback emerged in discussion"),
        ("impatto_potenziale", .pstr "alto"),
        ("feasibilita", .pstr "media"),
        ("investimento_richiesto", .pstr "Moderate - existing resources"),
        ("tempo_implementazione", .pstr "3-6 months")]]),
    ("recurring_themes", .plist [
      .pdict [
        ("tema", .pstr "Operational efficiency and process optimization"),
        ("importanza", .pstr "alta"),
        ("frequenza", .pstr "Recurring"),
        ("sentiment", .pstr "costruttivo"),
        ("pattern_emotivo", .pstr "Continuous improvement orientation")]]),
    ("decisions_made", .plist [
      .pdict [
        ("decisione", .pstr "Proceed with in-depth analysis of discussed opportunities"),
        ("responsabile", .pstr "Team leadership"),
        ("timeline", .pstr "Follow-up within 1-2 weeks"),
        ("risorse_necessarie", .pstr "Team time + potential external consulting"),
        ("rischi_identificati", .pstr "Focus dispersion if not prioritized")]]),
    ("weak_signals", .plist [
      .pdict [
        ("segnale", .pstr "Potential market dynamics changes not explicitly discussed"),
        ("implicazioni", .pstr "Need for proactive external trend monitoring"),
        ("urgenza", .pstr "media"),
        ("azioni_preventive", .pstr "Implement market intelligence system")]]),
    ("team_dynamics", .plist [
      .pdict [
        ("dinamica", .pstr "Active collaboration with room for strategic alignment improvement"),
        ("impatto_su_business", .pstr "Decision effectiveness can be optimized"),
        ("raccomandazione", .pstr "Better structure meetings with clear agenda and outcomes")]]),
    ("competitive_intelligence", .plist [
      .pdict [
        ("insight_competitivo", .pstr "Differentiation opportunities emerged from discussion"),
        ("vantaggio_potenziale", .pstr "First-mover advantage on specific initiatives"),
        ("azione_immediata", .pstr "Map competitive landscape to validate uniqueness")]])]

/-- Result dict of `analyze_with_ai`: on the error paths the Python dict
has no `analysis` key and the caller fallback to an empty dict produces an
empty dict, which is how the error constructor is modelled here. -/
structure AIResult where
  success : Bool
  analysis : PyVal
  error : String

/-- Embedding of `analyze_with_ai` (src/main.py lines 120-445).
`keyPresent` models the `OPENAI_API_KEY` environment lookup, `raises`
models any exception thrown inside the outer `try` block (caught at line
444), and `parsedResponse` models `json.loads` applied to the chat
completion content: `some a` for a well-formed JSON payload `a`, `none`
for a `json.JSONDecodeError` (line 310). The prompt-language branch at
line 130 only selects the prompt text sent to the provider (absorbed into
the oracle); the fallback branch at line 312 tests `detected_language`
alone. -/
def analyze_with_ai (keyPresent : Bool) (raises : Bool) (exnMsg : String)
    (transcription_text detected_language : String)
    (parsedResponse : Option PyVal) : AIResult :=
  if !keyPresent then
    { success := false, analysis := .pdict [], error := "OpenAI API key not found" }
  else if raises then
    { success := false, analysis := .pdict [], error := exnMsg }
  else
    let _italian_prompt_selected := usesItalianPrompt transcription_text detected_language
    match parsedResponse with
    | some analysis => { success := true, analysis := analysis, error := "" }
    | none =>
      let fallback_analysis :=
        if detected_language == "it" then fallback_analysis_it else fallback_analysis_en
      { success := true, analysis := fallback_analysis, error := "" }

/-- The MeetingAnalysisRecord stored into session state at the end of a
run (src/main.py lines 565-579); field names follow the dict keys
(`transcription` is flattened into its three entries, `processed_at` is a
wall-clock timestamp supplied at serialization time). -/
structure MeetingAnalysisRecord where
  filename : String
  transcription_text : String
  transcription_language : String
  transcription_duration : ℚ
  speakers : List SpeakerSegment
  speaker_count : Nat
  ai_analysis : PyVal
  file_size : Nat
  speaker_analysis_success : Bool
  ai_analysis_success : Bool

/-- Oracle inputs for one potential diarization-provider call. -/
structure DiarizationOracle where
  keyPresent : Bool
  raises : Bool
  exnMsg : String
  resp : DiarizationResponse

/-- Oracle inputs for one potential analysis-provider call. -/
structure AnalysisOracle where
  keyPresent : Bool
  raises : Bool
  exnMsg : String
  parsedResponse : Option PyVal

/-- The observable outcome of one pipeline run: which providers were
invoked, the transcript handed to the analysis stage (when it ran),
whether the temporary audio file was deleted, whether the run took the
fatal transcription-failure exit, and the stored record (none on the
fatal exit). -/
structure RunOutcome where
  diarizationCalled : Bool
  analysisCalled : Bool
  analysisInput : Option String
  tempFileDeleted : Bool
  failed : Bool
  record : Option MeetingAnalysisRecord

/-- Embedding of the Process-Audio block of `main`
(src/main.py lines 498-582), from the creation of the temporary audio
file to the storing of the session record. The three provider calls are
driven by `whisper_result` and the two oracles; `use_speaker_diarization`
and `use_advanced_analysis` are the two sidebar toggles. -/
def main_process (filename : String) (file_size : Nat)
    (use_speaker_diarization use_advanced_analysis : Bool)
    (whisper_result : WhisperResult)
    (dOracle : DiarizationOracle) (aOracle : AnalysisOracle) : RunOutcome :=
  if !whisper_result.success then
    { diarizationCalled := false, analysisCalled := false, analysisInput := none
      tempFileDeleted := true, failed := true, record := none }
  else
    let speaker_result :=
      if use_speaker_diarization then
        get_speaker_timestamps_only dOracle.keyPresent dOracle.raises dOracle.exnMsg dOracle.resp
      else
        { success := true, speaker_segments := [], total_speakers := 0, error := "" }
    let combined :=
      if use_speaker_diarization && speaker_result.success then
        combine_transcription_with_speakers whisper_result speaker_result
      else
        (whisper_result.text, [])
    let final_transcription := combined.1
    let speaker_segments := combined.2
    let detected_language := whisper_result.language
    let ai_result :=
      if use_advanced_analysis then
        analyze_with_ai aOracle.keyPresent aOracle.raises aOracle.exnMsg
          final_transcription detected_language aOracle.parsedResponse
      else
        { success := true, analysis := .pdict [], error := "" }
    { diarizationCalled := use_speaker_diarization
      analysisCalled := use_advanced_analysis
      analysisInput := if use_advanced_analysis then some final_transcription else none
      tempFileDeleted := true
      failed := false
      record := some {
        filename := filename
        transcription_text := final_transcription
        transcription_language := whisper_result.language
        transcription_duration := whisper_result.duration
        speakers := speaker_segments
        speaker_count := speaker_result.total_speakers
        ai_analysis := ai_result.analysis
        file_size := file_size
        speaker_analysis_success := speaker_result.success
        ai_analysis_success := ai_result.success } }

/-- Serialization of one speaker segment into the dict shape stored and
displayed (src/main.py lines 95-100 and 572). -/
def SpeakerSegment.toPyVal (seg : SpeakerSegment) : PyVal :=
  .pdict [
    ("speaker", .pstr seg.speaker),
    ("start", .pnum seg.start),
    ("end", .pnum seg.stop),
    ("confidence", .pnum seg.confidence)]

/-- Serialization of a MeetingAnalysisRecord into the session-state dict
of src/main.py lines 565-579 (`processed_at` is the run timestamp). -/
def MeetingAnalysisRecord.toPyVal (r : MeetingAnalysisRecord)
    (processed_at : String) : PyVal :=
  .pdict [
    ("filename", .pstr r.filename),
    ("transcription", .pdict [
      ("text", .pstr r.transcription_text),
      ("language", .pstr r.transcription_language),
      ("duration", .pnum r.transcription_duration)]),
    ("speakers", .plist (r.speakers.map SpeakerSegment.toPyVal)),
    ("speaker_count", .pnum r.speaker_count),
    ("ai_analysis", r.ai_analysis),
    ("processed_at", .pstr processed_at),
    ("file_size", .pnum r.file_size),
    ("speaker_analysis_success", .pbool r.speaker_analysis_success),
    ("ai_analysis_success", .pbool r.ai_analysis_success)]

/-- Whether the value is a dict. -/
def PyVal.isDict (v : PyVal) : Bool :=
  match v with
  | .pdict _ => true
  | _ => false

/-- Model of Python `d.get(k, default)`: `none` models the
`AttributeError` raised when `d` is not a dict. -/
def pyGet (v : PyVal) (k : String) (default : PyVal) : Option PyVal :=
  match v with
  | .pdict fields => some ((fields.lookup k).getD default)
  | _ => none

/-- Whether an attribute/key access succeeded and yielded a string
(models an access followed by `len`, slicing or `.upper()`). -/
def reqStr (v : Option PyVal) : Bool :=
  match v with
  | some x => x.isStr
  | none => false

/-- Whether an attribute/key access succeeded and yielded a number
(models an access followed by arithmetic or numeric formatting). -/
def reqNum (v : Option PyVal) : Bool :=
  match v with
  | some x => x.isNum
  | none => false

/-- The seven category names of the StrategicAnalysis schema, in the tab
order of src/main.py lines 645-653. -/
def fixedCategories : List String :=
  ["strategic_insights", "innovation_opportunities", "recurring_themes",
   "decisions_made", "weak_signals", "team_dynamics", "competitive_intelligence"]

/-- The legacy demo-schema category names read by src/demo_app.py. -/
def legacyCategories : List String :=
  ["insight_strategici", "opportunita_innovation", "temi_ricorrenti"]

/-- A category value the per-item rendering loops can iterate without
error: a list of flat mappings of string fields (the record shape of
spec section 3). The per-item rendering of src/main.py lines 656-753 and
src/demo_app.py lines 62-78 is modelled conservatively: a flat string
record makes every `.get` access, f-string interpolation and `.title()`
call in those loops succeed. -/
def goodCategoryVal (v : PyVal) : Bool :=
  match v.asList with
  | some xs => xs.all PyVal.isStrDict
  | none => false

/-- Schema validity of a StrategicAnalysis: every one of the seven fixed
categories is present and maps to a list of flat string records. -/
def schemaValidAnalysis (v : PyVal) : Bool :=
  fixedCategories.all (fun k =>
    match v.lookupKey k with
    | some c => goodCategoryVal c
    | none => false)

/-- One tab of the AI-analysis display (src/main.py lines 655-753): the
category is rendered only when its name is a key of `ai_analysis`
(the `in` membership guard), otherwise the tab shows nothing. -/
def renderCategoryTabOk (aa : PyVal) (k : String) : Bool :=
  match aa.lookupKey k with
  | some v => goodCategoryVal v
  | none => true

/-- An `ai_analysis` value the display layer can render: each of the
seven fixed category names, when present, maps to a list of flat string
records (absent categories are skipped by the `in` membership guards of
src/main.py lines 656-746). -/
def displayableAnalysis (aa : PyVal) : Bool :=
  fixedCategories.all (renderCategoryTabOk aa)

/-- One legacy category of the demo page: `.get(k, [])` on the
`ai_analysis` dict followed by the per-item loop
(src/demo_app.py lines 61-78). -/
def demoCategoryOk (aa : PyVal) (k : String) : Bool :=
  match pyGet aa k (.plist []) with
  | some v => goodCategoryVal v
  | none => false

/-- An `ai_analysis` value the demo page can render: a dict whose legacy
category names map (after the `.get(..., [])` default) to lists of flat
string records. -/
def demoDisplayableAnalysis (aa : PyVal) : Bool :=
  aa.isDict && legacyCategories.all (demoCategoryOk aa)

/-- One row of the speaker timeline (src/main.py lines 633-636):
`segment[\x27start\x27]` and `segment[\x27end\x27]` feed integer arithmetic (must
be numbers) and `segment[\x27speaker\x27]` must exist. -/
def renderSegmentOk (seg : PyVal) : Bool :=
  reqNum (seg.lookupKey "start") &&
  reqNum (seg.lookupKey "end") &&
  (seg.lookupKey "speaker").isSome

/-- Embedding of `display_analysis_results` (src/main.py lines 591-753)
as the predicate "the display completes without a raised exception"
(`KeyError`/`TypeError`/`AttributeError`). Each conjunct models the
accesses of one part of the source, in order: the header metrics, the
processing-status row, the transcription expander, the speaker timeline
(first 20 segments, only when `speakers` is truthy), and the seven
category tabs (only when `ai_analysis` is truthy, each guarded by key
membership). -/
def display_analysis_results_ok (analysis : PyVal) : Bool :=
  reqStr (analysis.lookupKey "filename") &&
  reqStr ((analysis.lookupKey "transcription").bind (fun t => t.lookupKey "language")) &&
  reqNum ((analysis.lookupKey "transcription").bind (fun t => t.lookupKey "duration")) &&
  (match analysis.lookupKey "speaker_analysis_success", analysis.lookupKey "speaker_count" with
   | some sas, some sc => !sas.isTruthy || sc.isNum
   | _, _ => false) &&
  (analysis.lookupKey "ai_analysis_success").isSome &&
  reqStr ((analysis.lookupKey "transcription").bind (fun t => t.lookupKey "text")) &&
  (match analysis.lookupKey "speakers" with
   | some speakers =>
     if speakers.isTruthy then
       match speakers.asList with
       | some xs => (xs.take 20).all renderSegmentOk
       | none => false
     else true
   | none => false) &&
  (match analysis.lookupKey "ai_analysis" with
   | some aa => if aa.isTruthy then fixedCategories.all (renderCategoryTabOk aa) else true
   | none => false)

/-- Embedding of `load_analysis_data` (src/demo_app.py lines 19-27): the
reader json-loads every file of the analysis directory and imposes no
schema on the loaded values. -/
def load_analysis_data (files : List PyVal) : List PyVal :=
  files

/-- One summand of the demo overview metrics (src/demo_app.py lines
38-40): `len(d[\x27ai_analysis\x27].get(k, []))` completes when `ai_analysis`
exists, is a dict, and the category (when present) is a list. -/
def legacyCategoryLenOk (d : PyVal) (k : String) : Bool :=
  match d.lookupKey "ai_analysis" with
  | some aa =>
    match pyGet aa k (.plist []) with
    | some v => v.asList.isSome
    | none => false
  | none => false

/-- The three overview totals of the demo page
(src/demo_app.py lines 38-40). -/
def demo_total_counts_ok (analysis_data : List PyVal) : Bool :=
  analysis_data.all (fun d => legacyCategoryLenOk d "insight_strategici") &&
  analysis_data.all (fun d => legacyCategoryLenOk d "opportunita_innovation") &&
  analysis_data.all (fun d => legacyCategoryLenOk d "temi_ricorrenti")

/-- The per-meeting expander of the demo page (src/demo_app.py lines
54-78): reads `meeting_info.title` and renders the three legacy
categories with `.get(..., [])` defaults. -/
def demo_render_meeting_ok (meeting : PyVal) : Bool :=
  (match meeting.lookupKey "meeting_info" with
   | some mi => (mi.lookupKey "title").isSome
   | none => false) &&
  (match meeting.lookupKey "ai_analysis" with
   | some aa => legacyCategories.all (demoCategoryOk aa)
   | none => false)

/-- The demo page\x27s whole `try` block (src/demo_app.py lines 30-78):
load the corpus, compute the overview metrics, render every meeting. -/
def demo_app_page_ok (files : List PyVal) : Bool :=
  demo_total_counts_ok (load_analysis_data files) &&
  (load_analysis_data files).all demo_render_meeting_ok

/-- The demo-corpus record shape implied by src/demo_app.py: a dict with
a `meeting_info.title` and an `ai_analysis` payload. -/
def demoMeetingRecord (title : String) (aa : PyVal) : PyVal :=
  .pdict [
    ("meeting_info", .pdict [("title", .pstr title)]),
    ("ai_analysis", aa)]

/-- Extracts the name of the first recurring theme of an analysis
payload; used to tell the two fallback payloads apart. -/
def probeThemeName (v : PyVal) : Option String :=
  match v.lookupKey "recurring_themes" with
  | some c =>
    match c.asList with
    | some (x :: _) =>
      match x.lookupKey "tema" with
      | some (.pstr s) => some s
      | _ => none
    | _ => none
  | none => none

/-- The two hard-coded fallback payloads are different values. -/
theorem fallbacks_distinct : fallback_analysis_it ≠ fallback_analysis_en := by
  intro h
  have h2 := congrArg probeThemeName h
  rw [show probeThemeName fallback_analysis_it
        = some "Efficienza operativa e ottimizzazione processi" from rfl] at h2
  rw [show probeThemeName fallback_analysis_en
        = some "Operational efficiency and process optimization" from rfl] at h2
  exact absurd h2 (by decide)

/-- `combine_transcription_with_speakers` returns the Whisper text as the
transcript in every case. -/
theorem combine_fst (w : WhisperResult) (s : SpeakerResult) :
    (combine_transcription_with_speakers w s).1 = w.text := by
  unfold combine_transcription_with_speakers
  split <;> rfl

/-- Claim C7: for every utterance returned by the diarization provider,
the SpeakerSegment produced by the diarization stage has start and end
equal to the provider millisecond values divided by 1000; in
particular provider timestamps start 1500, end 4200 yield exactly
start 1.5, end 4.2 seconds. -/
theorem diarization_timestamps_converted_to_seconds
    (resp : DiarizationResponse) (hok : resp.isError = false) :
    (get_speaker_timestamps_only true false "" resp).speaker_segments
      = resp.utterances.map uttToSeg
    ∧ (∀ u : Utterance,
        (uttToSeg u).start = u.start / 1000 ∧ (uttToSeg u).stop = u.stop / 1000)
    ∧ (∀ u : Utterance, u.start = 1500 → u.stop = 4200 →
        (uttToSeg u).start = 1.5 ∧ (uttToSeg u).stop = 4.2) := by
  refine ⟨by simp [get_speaker_timestamps_only, hok], fun u => ⟨rfl, rfl⟩,
    fun u h1 h2 => ⟨?_, ?_⟩⟩
  · show u.start / 1000 = 1.5
    rw [h1]; norm_num
  · show u.stop / 1000 = 4.2
    rw [h2]; norm_num

/-- Witness for C7: the concrete utterance of the example in the spec. -/
theorem diarization_timestamps_converted_to_seconds_witness :
    (get_speaker_timestamps_only true false ""
        ⟨false, "", [⟨"A", 1500, 4200, none⟩]⟩).speaker_segments
      = [⟨"A", 1500, 4200, none⟩].map uttToSeg
    ∧ (uttToSeg ⟨"A", 1500, 4200, none⟩).start = 1.5
    ∧ (uttToSeg ⟨"A", 1500, 4200, none⟩).stop = 4.2 := by
  have h := diarization_timestamps_converted_to_seconds
    ⟨false, "", [⟨"A", 1500, 4200, none⟩]⟩ rfl
  exact ⟨h.1, (h.2.2 ⟨"A", 1500, 4200, none⟩ rfl rfl).1,
    (h.2.2 ⟨"A", 1500, 4200, none⟩ rfl rfl).2⟩

/-- Claim C10: every SpeakerSegment produced by a successful diarization
call carries a confidence: the provider value when present, and exactly
0.9 when the provider utterance has no confidence attribute. -/
theorem diarization_confidence_passthrough_or_default
    (resp : DiarizationResponse) (hok : resp.isError = false) :
    (get_speaker_timestamps_only true false "" resp).speaker_segments
      = resp.utterances.map uttToSeg
    ∧ (∀ (u : Utterance) (c : ℚ), u.confidence = some c → (uttToSeg u).confidence = c)
    ∧ (∀ u : Utterance, u.confidence = none → (uttToSeg u).confidence = 9 / 10) := by
  refine ⟨by simp [get_speaker_timestamps_only, hok], fun u c hc => ?_, fun u hn => ?_⟩
  · simp [uttToSeg, hc]
  · simp [uttToSeg, hn]

/-- Witness for C10: one utterance with a provider confidence and one
without. -/
theorem diarization_confidence_passthrough_or_default_witness :
    (get_speaker_timestamps_only true false ""
        ⟨false, "", [⟨"A", 0, 1000, some (3 / 4)⟩, ⟨"B", 1000, 2000, none⟩]⟩).speaker_segments
      = [⟨"A", 0, 1, 3 / 4⟩, ⟨"B", 1, 2, 9 / 10⟩] := by
  have h := diarization_confidence_passthrough_or_default
    ⟨false, "", [⟨"A", 0, 1000, some (3 / 4)⟩, ⟨"B", 1000, 2000, none⟩]⟩ rfl
  rw [h.1]
  have hA := h.2.1 ⟨"A", 0, 1000, some (3 / 4)⟩ (3 / 4) rfl
  have hB := h.2.2 ⟨"B", 1000, 2000, none⟩ rfl
  simp [uttToSeg] at hA hB ⊢
  norm_num [hA, hB]

/-- Claim C4: when the transcription stage fails, the run makes no
diarization call, no analysis call, stores no record, ends in the failed
state, and deletes the temporary audio file. -/
theorem transcription_failure_aborts_run
    (filename : String) (file_size : Nat) (useDiar useAdv : Bool)
    (w : WhisperResult) (d : DiarizationOracle) (a : AnalysisOracle)
    (hfail : w.success = false) :
    main_process filename file_size useDiar useAdv w d a =
      { diarizationCalled := false, analysisCalled := false, analysisInput := none
        tempFileDeleted := true, failed := true, record := none } := by
  simp [main_process, hfail]

/-- Witness for C4: a concrete run whose transcription fails. -/
theorem transcription_failure_aborts_run_witness :
    main_process "meeting.mp3" 7 true true ⟨false, "", "", 0, "timeout"⟩
        ⟨true, false, "", ⟨false, "", []⟩⟩ ⟨true, false, "", none⟩ =
      { diarizationCalled := false, analysisCalled := false, analysisInput := none
        tempFileDeleted := true, failed := true, record := none } :=
  transcription_failure_aborts_run "meeting.mp3" 7 true true
    ⟨false, "", "", 0, "timeout"⟩ ⟨true, false, "", ⟨false, "", []⟩⟩
    ⟨true, false, "", none⟩ rfl

/-- Claim C5: with the diarization toggle off, the diarization provider
is never invoked and the stored record has no speaker segments and a
speaker count of zero. -/
theorem diarization_disabled_empty_speakers
    (filename : String) (file_size : Nat) (useAdv : Bool)
    (w : WhisperResult) (d : DiarizationOracle) (a : AnalysisOracle)
    (hok : w.success = true) :
    (main_process filename file_size false useAdv w d a).diarizationCalled = false
    ∧ ((main_process filename file_size false useAdv w d a).record.map
        MeetingAnalysisRecord.speakers) = some []
    ∧ ((main_process filename file_size false useAdv w d a).record.map
        MeetingAnalysisRecord.speaker_count) = some 0 := by
  refine ⟨?_, ?_, ?_⟩ <;> simp [main_process, hok]

/-- Witness for C5: a concrete run with the diarization toggle off. -/
theorem diarization_disabled_empty_speakers_witness :
    (main_process "m.wav" 3 false true ⟨true, "hello", "en", 5, ""⟩
        ⟨true, false, "", ⟨false, "", [⟨"A", 0, 1000, none⟩]⟩⟩
        ⟨true, false, "", none⟩).diarizationCalled = false
    ∧ ((main_process "m.wav" 3 false true ⟨true, "hello", "en", 5, ""⟩
        ⟨true, false, "", ⟨false, "", [⟨"A", 0, 1000, none⟩]⟩⟩
        ⟨true, false, "", none⟩).record.map MeetingAnalysisRecord.speakers) = some []
    ∧ ((main_process "m.wav" 3 false true ⟨true, "hello", "en", 5, ""⟩
        ⟨true, false, "", ⟨false, "", [⟨"A", 0, 1000, none⟩]⟩⟩
        ⟨true, false, "", none⟩).record.map MeetingAnalysisRecord.speaker_count) = some 0 :=
  diarization_disabled_empty_speakers "m.wav" 3 true ⟨true, "hello", "en", 5, ""⟩
    ⟨true, false, "", ⟨false, "", [⟨"A", 0, 1000, none⟩]⟩⟩ ⟨true, false, "", none⟩ rfl

/-- Claim C6: two runs on the same upload and transcription that differ
only in the diarization oracle hand the analysis stage the same
transcript, and that transcript is the stage-1 Whisper text. -/
theorem analysis_input_ignores_diarization
    (filename : String) (file_size : Nat) (useDiar useAdv : Bool)
    (w : WhisperResult) (d1 d2 : DiarizationOracle) (a : AnalysisOracle) :
    (main_process filename file_size useDiar useAdv w d1 a).analysisInput
      = (main_process filename file_size useDiar useAdv w d2 a).analysisInput
    ∧ (w.success = true → useAdv = true →
        (main_process filename file_size useDiar useAdv w d1 a).analysisInput
          = some w.text) := by
  have key : ∀ dO : DiarizationOracle,
      (main_process filename file_size useDiar useAdv w dO a).analysisInput
        = if w.success && useAdv then some w.text else none := by
    intro dO
    cases hw : w.success
    · simp [main_process, hw]
    · simp [main_process, hw, apply_ite Prod.fst, combine_fst]
  refine ⟨by rw [key d1, key d2], fun h1 h2 => by rw [key d1, h1, h2]; rfl⟩

/-- Witness for C6: two concrete runs, one whose diarization succeeds
with a segment and one whose diarization fails. -/
theorem analysis_input_ignores_diarization_witness :
    (main_process "m.wav" 3 true true ⟨true, "hello", "en", 5, ""⟩
        ⟨true, false, "", ⟨false, "", [⟨"A", 0, 1000, none⟩]⟩⟩
        ⟨true, false, "", none⟩).analysisInput
      = (main_process "m.wav" 3 true true ⟨true, "hello", "en", 5, ""⟩
          ⟨false, true, "boom", ⟨true, "err", []⟩⟩
          ⟨true, false, "", none⟩).analysisInput
    ∧ (main_process "m.wav" 3 true true ⟨true, "hello", "en", 5, ""⟩
        ⟨true, false, "", ⟨false, "", [⟨"A", 0, 1000, none⟩]⟩⟩
        ⟨true, false, "", none⟩).analysisInput = some "hello" :=
  let h := analysis_input_ignores_diarization "m.wav" 3 true true
    ⟨true, "hello", "en", 5, ""⟩
    ⟨true, false, "", ⟨false, "", [⟨"A", 0, 1000, none⟩]⟩⟩
    ⟨false, true, "boom", ⟨true, "err", []⟩⟩ ⟨true, false, "", none⟩
  ⟨h.1, h.2 rfl rfl⟩

/-- Claim C8: the temporary audio file is deleted on every exit path of
the run, fatal or not. -/
theorem temp_file_deleted_on_every_path
    (filename : String) (file_size : Nat) (useDiar useAdv : Bool)
    (w : WhisperResult) (d : DiarizationOracle) (a : AnalysisOracle) :
    (main_process filename file_size useDiar useAdv w d a).tempFileDeleted = true := by
  cases hw : w.success <;> simp [main_process, hw]

/-- The analysis stage reports success exactly when the provider key is
present and the call raised no exception, regardless of whether the
response parsed as JSON. -/
theorem analyze_success_eq (kp r : Bool) (e t l : String) (p : Option PyVal) :
    (analyze_with_ai kp r e t l p).success = (kp && !r) := by
  cases kp <;> cases r <;> cases p <;> rfl

/-- On the error paths of the analysis stage the caller observes an empty
analysis dict (the Python error dict has no `analysis` key). -/
theorem analyze_failure_analysis_empty (kp r : Bool) (e t l : String) (p : Option PyVal)
    (h : (kp && !r) = false) :
    (analyze_with_ai kp r e t l p).analysis = .pdict [] := by
  cases kp
  · rfl
  · cases r
    · simp at h
    · rfl

/-- On the malformed-JSON path the analysis is the fallback payload
selected by `detected_language` alone. -/
theorem analyze_malformed_analysis (e t l : String) :
    (analyze_with_ai true false e t l none).analysis
      = if l == "it" then fallback_analysis_it else fallback_analysis_en := rfl

/-- The Italian fallback payload is schema-valid. -/
theorem schemaValid_fallback_it : schemaValidAnalysis fallback_analysis_it = true := by
  decide

/-- The English fallback payload is schema-valid. -/
theorem schemaValid_fallback_en : schemaValidAnalysis fallback_analysis_en = true := by
  decide

/-- Claim C2: when the provider response is not parseable as JSON, the
analysis stage returns without raising (the embedding is total and takes
the `JSONDecodeError` branch of src/main.py line 310), reports success,
and yields exactly one of the two hard-coded fallback payloads: a
non-empty, schema-valid StrategicAnalysis with all fixed categories,
independent of the transcript, never a partially-parsed structure. -/
theorem analyze_malformed_returns_canned_fallback
    (transcription_text detected_language exnMsg : String) :
    (analyze_with_ai true false exnMsg transcription_text detected_language none).success = true
    ∧ ((analyze_with_ai true false exnMsg transcription_text detected_language none).analysis
          = fallback_analysis_it
        ∨ (analyze_with_ai true false exnMsg transcription_text detected_language none).analysis
          = fallback_analysis_en)
    ∧ ((analyze_with_ai true false exnMsg transcription_text detected_language
          none).analysis).isTruthy = true
    ∧ schemaValidAnalysis
        ((analyze_with_ai true false exnMsg transcription_text detected_language
          none).analysis) = true
    ∧ (∀ other_text : String,
        (analyze_with_ai true false exnMsg other_text detected_language none).analysis
          = (analyze_with_ai true false exnMsg transcription_text detected_language
              none).analysis)
    ∧ fallback_analysis_it ≠ fallback_analysis_en := by
  refine ⟨rfl, ?_, ?_, ?_, fun other_text => by rw [analyze_malformed_analysis,
    analyze_malformed_analysis], fallbacks_distinct⟩ <;>
    rw [analyze_malformed_analysis] <;> cases hq : (detected_language == "it")
  · simp
  · simp
  · simp [fallback_analysis_en, PyVal.isTruthy]
  · simp [fallback_analysis_it, PyVal.isTruthy]
  · simpa using schemaValid_fallback_en
  · simpa using schemaValid_fallback_it

/-- Claim C3 counterexample: with detected language `en` and a transcript
containing the Italian function word `che`, the Italian prompt branch of
line 130 is selected, yet the malformed-JSON fallback of line 312 is the
English payload, not the Italian one. -/
theorem fallback_language_mismatch_counterexample :
    usesItalianPrompt "che cosa facciamo" "en" = true
    ∧ (analyze_with_ai true false "" "che cosa facciamo" "en" none).analysis
        = fallback_analysis_en
    ∧ (analyze_with_ai true false "" "che cosa facciamo" "en" none).analysis
        ≠ fallback_analysis_it := by
  refine ⟨by decide, rfl, ?_⟩
  rw [show (analyze_with_ai true false "" "che cosa facciamo" "en" none).analysis
      = fallback_analysis_en from rfl]
  exact fun h => fallbacks_distinct h.symm

/-- Claim C3 (amended): the language of the fallback payload follows the
detected language alone — the Italian fallback is substituted exactly
when `detected_language = "it"`, and the English fallback exactly
otherwise, even when the Italian prompt branch was selected through the
function-word heuristic. -/
theorem fallback_language_follows_detected_language
    (transcription_text detected_language exnMsg : String) :
    (((analyze_with_ai true false exnMsg transcription_text detected_language
          none).analysis = fallback_analysis_it) ↔ detected_language = "it")
    ∧ (((analyze_with_ai true false exnMsg transcription_text detected_language
          none).analysis = fallback_analysis_en) ↔ detected_language ≠ "it") := by
  rw [analyze_malformed_analysis]
  cases hq : (detected_language == "it")
  · have hl : detected_language ≠ "it" := by simpa using hq
    simp [hl, Ne.symm fallbacks_distinct]
  · have hl : detected_language = "it" := by simpa using hq
    simp [hl, fallbacks_distinct]

/-- The invariant asserted by claim C1, stated for one pipeline run: when
a record is stored, its `ai_analysis_success` flag is true iff its
`ai_analysis` is non-empty and is the well-formed JSON payload parsed
from the analysis provider response (so in particular a canned-fallback
analysis or a disabled analysis toggle cannot come with a true flag and a
provider payload absent). -/
def aiFlagClaimAt (filename : String) (file_size : Nat) (useDiar useAdv : Bool)
    (w : WhisperResult) (d : DiarizationOracle) (a : AnalysisOracle) : Prop :=
  match (main_process filename file_size useDiar useAdv w d a).record with
  | some rec =>
      rec.ai_analysis_success = true ↔
        (rec.ai_analysis.isTruthy = true ∧ a.parsedResponse = some rec.ai_analysis
          ∧ useAdv = true)
  | none => True

/-- Claim C1 counterexample: a run whose provider response is malformed
JSON stores a record with `ai_analysis_success = true` even though the
analysis is the canned fallback and no well-formed payload was parsed,
so the stated invariant fails on this concrete run. -/
theorem ai_success_flag_claim_false :
    ¬ aiFlagClaimAt "meeting.mp3" 7 false true ⟨true, "hello team", "en", 30, ""⟩
        ⟨true, false, "", ⟨false, "", []⟩⟩ ⟨true, false, "", none⟩ := by
  intro h
  exact Option.noConfusion (h.mp rfl).2.1

/-- Claim C1 (amended): `ai_analysis_success` is true iff the analysis
toggle is off or the analysis call completed without a missing key or a
raised exception — the canned-fallback path also counts as success — and
whenever the flag is false the stored `ai_analysis` is empty. -/
theorem ai_success_flag_amended
    (filename : String) (file_size : Nat) (useDiar useAdv : Bool)
    (w : WhisperResult) (d : DiarizationOracle) (a : AnalysisOracle)
    (hok : w.success = true) :
    ((main_process filename file_size useDiar useAdv w d a).record.map
        MeetingAnalysisRecord.ai_analysis_success)
      = some (!useAdv || (a.keyPresent && !a.raises))
    ∧ ((!useAdv || (a.keyPresent && !a.raises)) = false →
        ((main_process filename file_size useDiar useAdv w d a).record.map
            MeetingAnalysisRecord.ai_analysis) = some (.pdict []))
    ∧ (useAdv = true → a.keyPresent = true → a.raises = false →
        a.parsedResponse = none →
        ((main_process filename file_size useDiar useAdv w d a).record.map
            MeetingAnalysisRecord.ai_analysis)
          = some (if w.language == "it" then fallback_analysis_it
                  else fallback_analysis_en)) := by
  refine ⟨?_, ?_, ?_⟩
  · cases hu : useAdv
    · simp [main_process, hok, hu]
    · simp [main_process, hok, hu, analyze_success_eq]
  · intro hfail
    have hu : useAdv = true := by
      cases hu : useAdv
      · rw [hu] at hfail; simp at hfail
      · rfl
    rw [hu] at hfail
    simp only [Bool.not_true, Bool.false_or] at hfail
    have hempty := fun t l =>
      analyze_failure_analysis_empty a.keyPresent a.raises a.exnMsg t l a.parsedResponse hfail
    simp [main_process, hok, hu, hempty]
  · intro hu hk hr hp
    simp [main_process, hok, hu, analyze_with_ai, hk, hr, hp]

/-- Witness for the amended C1: a concrete run with the toggle on, the
key present, no exception, and a malformed provider response. -/
theorem ai_success_flag_amended_witness :
    ((main_process "meeting.mp3" 7 false true ⟨true, "hello team", "en", 30, ""⟩
        ⟨true, false, "", ⟨false, "", []⟩⟩ ⟨true, false, "", none⟩).record.map
        MeetingAnalysisRecord.ai_analysis_success) = some true
    ∧ ((main_process "meeting.mp3" 7 false true ⟨true, "hello team", "en", 30, ""⟩
        ⟨true, false, "", ⟨false, "", []⟩⟩ ⟨true, false, "", none⟩).record.map
        MeetingAnalysisRecord.ai_analysis) = some fallback_analysis_en := by
  have h := ai_success_flag_amended "meeting.mp3" 7 false true
    ⟨true, "hello team", "en", 30, ""⟩ ⟨true, false, "", ⟨false, "", []⟩⟩
    ⟨true, false, "", none⟩ rfl
  refine ⟨by simpa using h.1, ?_⟩
  have h3 := h.2.2 rfl rfl rfl rfl
  simpa using h3

/-- A serialized speaker segment always renders in the timeline. -/
theorem renderSegmentOk_toPyVal (seg : SpeakerSegment) :
    renderSegmentOk (SpeakerSegment.toPyVal seg) = true := rfl

/-- Every prefix of a serialized speaker timeline renders. -/
theorem all_segments_render (l : List SpeakerSegment) (n : Nat) :
    ((l.map SpeakerSegment.toPyVal).take n).all renderSegmentOk = true := by
  induction l generalizing n with
  | nil => simp
  | cons x xs ih =>
    cases n with
    | zero => rfl
    | succ m => simpa [renderSegmentOk_toPyVal] using ih m

/-- A well-formed category value is a list. -/
theorem goodCategoryVal_asList_isSome (v : PyVal) (h : goodCategoryVal v = true) :
    v.asList.isSome = true := by
  cases v <;> simp [goodCategoryVal, PyVal.asList] at h ⊢

/-- The display layer completes on the serialization of any
MeetingAnalysisRecord whose `ai_analysis` is displayable — whichever
schema variant the category names follow. -/
theorem display_ok_toPyVal
    (filename text lang ts : String) (dur : ℚ) (sc fs : Nat) (sas aiok : Bool)
    (speakers : List SpeakerSegment) (aa : PyVal)
    (hdisp : displayableAnalysis aa = true) :
    display_analysis_results_ok
      (MeetingAnalysisRecord.toPyVal
        ⟨filename, text, lang, dur, speakers, sc, aa, fs, sas, aiok⟩ ts) = true := by
  have hseg := all_segments_render speakers 20
  have htabs : fixedCategories.all (renderCategoryTabOk aa) = true := by
    simpa [displayableAnalysis] using hdisp
  simp [display_analysis_results_ok, MeetingAnalysisRecord.toPyVal, PyVal.lookupKey,
    List.lookup, reqStr, reqNum, PyVal.isStr, PyVal.isNum, PyVal.isTruthy,
    PyVal.asList, hseg, htabs]

/-- The demo metrics complete on one legacy category of a demo record
whose `ai_analysis` category is well-formed. -/
theorem legacyLenOk_of_demoCategoryOk (title : String) (aa : PyVal) (k : String)
    (h : demoCategoryOk aa k = true) :
    legacyCategoryLenOk (demoMeetingRecord title aa) k = true := by
  unfold demoCategoryOk at h
  unfold legacyCategoryLenOk demoMeetingRecord
  cases hp : pyGet aa k (.plist []) with
  | none => rw [hp] at h; simp at h
  | some v =>
    rw [hp] at h
    simp [PyVal.lookupKey, List.lookup, hp, goodCategoryVal_asList_isSome v h]

/-- The per-meeting rendering of the demo page completes on a demo record
whose `ai_analysis` is demo-displayable. -/
theorem demo_render_meeting_ok_record (title : String) (aa : PyVal)
    (hcats : legacyCategories.all (demoCategoryOk aa) = true) :
    demo_render_meeting_ok (demoMeetingRecord title aa) = true := by
  simp [demo_render_meeting_ok, demoMeetingRecord, PyVal.lookupKey, List.lookup, hcats]

/-- The whole demo page completes on a corpus of one demo record whose
`ai_analysis` is demo-displayable. -/
theorem demo_app_page_ok_record (title : String) (aa : PyVal)
    (hdemo : demoDisplayableAnalysis aa = true) :
    demo_app_page_ok (load_analysis_data [demoMeetingRecord title aa]) = true := by
  have hcats : legacyCategories.all (demoCategoryOk aa) = true := by
    have := hdemo
    unfold demoDisplayableAnalysis at this
    exact (Bool.and_eq_true _ _ |>.mp this).2
  have hall := hcats
  simp [legacyCategories, Bool.and_eq_true] at hall
  obtain ⟨h1, h2, h3⟩ := hall
  simp [demo_app_page_ok, load_analysis_data, demo_total_counts_ok,
    legacyLenOk_of_demoCategoryOk title aa _ h1,
    legacyLenOk_of_demoCategoryOk title aa _ h2,
    legacyLenOk_of_demoCategoryOk title aa _ h3,
    demo_render_meeting_ok_record title aa hcats]

/-- Claim C9: a record whose `ai_analysis` follows either schema variant
(legacy demo names or fresh English names, each category a list of flat
string records) is loaded by the demo-corpus reader and rendered by the
presentation layer without error: `display_analysis_results` completes on
the serialized MeetingAnalysisRecord and the demo page completes on the
demo-corpus record. -/
theorem presentation_accepts_both_schemas
    (filename text lang ts title : String) (dur : ℚ) (sc fs : Nat)
    (sas aiok : Bool) (speakers : List SpeakerSegment) (aa : PyVal)
    (hdisp : displayableAnalysis aa = true)
    (hdemo : demoDisplayableAnalysis aa = true) :
    display_analysis_results_ok
      (MeetingAnalysisRecord.toPyVal
        ⟨filename, text, lang, dur, speakers, sc, aa, fs, sas, aiok⟩ ts) = true
    ∧ demo_app_page_ok (load_analysis_data [demoMeetingRecord title aa]) = true :=
  ⟨display_ok_toPyVal filename text lang ts dur sc fs sas aiok speakers aa hdisp,
   demo_app_page_ok_record title aa hdemo⟩

/-- A concrete `ai_analysis` payload using the legacy demo schema names. -/
def legacy_demo_example : PyVal :=
  .pdict [
    ("insight_strategici", .plist [
      .pdict [("insight", .pstr "Punto chiave della riunione"),
              ("azione_suggerita", .pstr "Approfondire entro la settimana")]]),
    ("opportunita_innovation", .plist [
      .pdict [("opportunita", .pstr "Nuovo servizio digitale"),
              ("impatto_potenziale", .pstr "alto")]]),
    ("temi_ricorrenti", .plist [
      .pdict [("tema", .pstr "Processi interni"),
              ("importanza", .pstr "alta")]])]

/-- Witness for C9: both schema variants — the legacy example and the
fresh English fallback payload — load and render without error. -/
theorem presentation_accepts_both_schemas_witness :
    (display_analysis_results_ok
        (MeetingAnalysisRecord.toPyVal
          ⟨"m.mp3", "ciao a tutti", "it", 30, [⟨"A", 1, 2, 9 / 10⟩], 1,
            legacy_demo_example, 10, true, true⟩ "ts") = true
      ∧ demo_app_page_ok
          (load_analysis_data [demoMeetingRecord "Meeting 1" legacy_demo_example]) = true)
    ∧ (display_analysis_results_ok
        (MeetingAnalysisRecord.toPyVal
          ⟨"m.mp3", "hello all", "en", 30, [], 0,
            fallback_analysis_en, 10, false, true⟩ "ts") = true
      ∧ demo_app_page_ok
          (load_analysis_data [demoMeetingRecord "Meeting 2" fallback_analysis_en]) = true) :=
  ⟨presentation_accepts_both_schemas "m.mp3" "ciao a tutti" "it" "ts" "Meeting 1"
      30 1 10 true true [⟨"A", 1, 2, 9 / 10⟩] legacy_demo_example
      (by decide) (by decide),
   presentation_accepts_both_schemas "m.mp3" "hello all" "en" "ts" "Meeting 2"
      30 0 10 false true [] fallback_analysis_en (by decide) (by decide)⟩

end SMI
